import Mathlib

/-!
Verification development for `dcan_bold_proc.py` (DCAN BOLD signal processing
orchestrator).  The Python module is shallowly embedded: the orchestration
logic of `interface`, `_cli`, `make_masks` and the cleanup loops is translated
into pure Lean functions over an explicit filesystem model, and every external
subprocess invocation, file removal, directory creation, console print and
config-file write is recorded as an explicit effect in an execution trace.

Modelling conventions:
* A filesystem is an association list from path strings to a flag telling
  whether the entry is a directory (`true`) or a regular file (`false`).
* `os.remove` fails with `FileNotFoundError` on a missing path and with
  `IsADirectoryError` on a directory, mirroring POSIX Python behaviour.
* Python float/int parameter values are modelled as rationals; they are only
  carried through to the serialized config, never computed with.  The textual
  rendering used when a number is interpolated into a subprocess argument
  vector is abstracted by `ratStr`; no claim inspects that text.
* The repetition time returned by the external `fslval` call is supplied as an
  oracle parameter `trVal` (the model assumes the call succeeds and its output
  parses as a float, which is the success envelope every claim quantifies
  over).
* `json.dump` of a flat string-keyed dict with pairwise distinct keys is
  modelled by the association list itself; parsing the serialized file back is
  association-list lookup.
-/

namespace DcanBoldProc

/-- Boolean test that the first character list is a prefix of the second. -/
def charsPrefixB : List Char → List Char → Bool
  | [], _ => true
  | _ :: _, [] => false
  | a :: as, b :: bs => a == b && charsPrefixB as bs

/-- Boolean test that `sub` occurs as a contiguous infix of the second list. -/
def charsInfixB (sub : List Char) : List Char → Bool
  | [] => charsPrefixB sub []
  | b :: bs => charsPrefixB sub (b :: bs) || charsInfixB sub bs

/-- Models the Python membership test `sub in s` on strings: `sub` occurs as a
contiguous substring of `s` (the empty string is a substring of everything,
as in Python). -/
def pyIn (sub s : String) : Bool := charsInfixB sub.data s.data

/-- Models `os.path.join` on a non-empty list of components, the second and
later of which are relative (as everywhere in the source): the components are
glued with `/` separators. -/
def osPathJoin (parts : List String) : String := String.intercalate "/" parts

/-- Splits a character list at `/` separators (always non-empty result). -/
def splitSlash : List Char → List (List Char)
  | [] => [[]]
  | c :: rest =>
    match splitSlash rest with
    | [] => [[]]
    | g :: gs => if c = '/' then [] :: g :: gs else (c :: g) :: gs

/-- Glues character groups back together with `/` separators. -/
def joinSlash : List (List Char) → List Char
  | [] => []
  | [g] => g
  | g :: gs => g ++ '/' :: joinSlash gs

/-- Models `os.path.basename`: the part of the path after the last slash. -/
def basename (p : String) : String :=
  String.mk ((splitSlash p.data).getLastD [])

/-- Models `os.path.dirname` for the multi-component paths used in the
source: everything before the last slash. -/
def dirname (p : String) : String :=
  String.mk (joinSlash (splitSlash p.data).dropLast)

/-- Models the Python rendering `str(x)` / `'%s' % x` of an optional string
value: `None` renders as the literal text `None`. -/
def optStr : Option String → String
  | none => "None"
  | some s => s

/-- Abstract rendering of a Python number by `str(...)`.  It only ever appears
inside recorded subprocess argument vectors, whose text no claim inspects, so
any fixed computable rendering is adequate. -/
def ratStr (q : ℚ) : String := toString q

/-- A JSON-serializable Python value as used in the two config dicts. -/
inductive PyVal where
  | vStr (s : String)
  | vNum (q : ℚ)
  | vNone
deriving DecidableEq

/-- The process environment (`os.environ`), as an association list. -/
abbrev Env := List (String × String)

/-- Models the lookup underlying `os.environ[k]`. -/
def envGet (env : Env) (k : String) : Option String := env.lookup k

/-- A filesystem: association list from path to `true` (directory) or
`false` (regular file); the first matching entry wins. -/
abbrev FS := List (String × Bool)

/-- Kind of a path in the filesystem, if present. -/
def fsLookup (fs : FS) (p : String) : Option Bool := fs.lookup p

/-- Models `os.path.exists`. -/
def fsExists (fs : FS) (p : String) : Bool := (fsLookup fs p).isSome

/-- Whether the path exists and is a directory. -/
def fsIsDir (fs : FS) (p : String) : Bool := (fsLookup fs p).getD false

/-- A regular file appears at `p` (created or overwritten). -/
def fsAddFile (fs : FS) (p : String) : FS := (p, false) :: fs

/-- A directory appears at `p`. -/
def fsAddDir (fs : FS) (p : String) : FS := (p, true) :: fs

/-- The entry at `p` disappears. -/
def fsRemove (fs : FS) (p : String) : FS := fs.filter (fun e => e.fst != p)

/-- Python exceptions that the modelled code can raise. -/
inductive PyErr where
  | assertionError (msg : String)
  | isADirectoryError (path : String)
  | fileNotFoundError (path : String)
  | nameError (name : String)
  | keyError (key : String)
deriving DecidableEq

/-- Externally observable effects of a run, in execution order. -/
inductive Effect where
  | call (argv : List String)
  | remove (path : String)
  | mkdir (path : String)
  | writeJson (path : String) (content : List (String × PyVal))
  | msg (text : String)
deriving DecidableEq

/-- Module constant `version = '4.0.0'`. -/
def version : String := "4.0.0"

/-- Models `version_name`, the percent-format of the version into the release name. -/
def versionName : String := "DCANBOLDProc_v" ++ version

/-- The `input_spec` dict of `interface`, in source (insertion) order.
Caller-supplied `input_spec` overrides are not modelled (all claims concern
runs without overrides). -/
def inputSpec (output_folder task : String) : List (String × String) :=
  [("dtseries", osPathJoin [output_folder, "MNINonLinear", "Results", task,
      task ++ "_Atlas.dtseries.nii"]),
   ("fmri_volume", osPathJoin [output_folder, "MNINonLinear", "Results", task,
      task ++ ".nii.gz"]),
   ("movement_regressors", osPathJoin [output_folder, "MNINonLinear",
      "Results", task, "Movement_Regressors.txt"]),
   ("segmentation", osPathJoin [output_folder, "MNINonLinear", "ROIs",
      "wmparc.2.nii.gz"])]

/-- The `output_spec` dict of `interface`, in source (insertion) order.
Caller-supplied `output_spec` overrides are not modelled. -/
def outputSpec (output_folder task subject : String) : List (String × String) :=
  [("config", osPathJoin [output_folder, "MNINonLinear", "Results", task,
      versionName, versionName ++ "_mat_config.json"]),
   ("output_ciftis", osPathJoin [output_folder, versionName, "analyses_v2",
      "workbench"]),
   ("output_dtseries", task ++ "_" ++ versionName ++ "_Atlas.dtseries.nii"),
   ("output_motion_numbers", osPathJoin [output_folder, "MNINonLinear",
      "Results", task, versionName, "motion_numbers.txt"]),
   ("output_timecourses", osPathJoin [output_folder, versionName,
      "analyses_v2", "timecourses"]),
   ("result_dir", osPathJoin [output_folder, "MNINonLinear", "Results", task,
      versionName]),
   ("summary_folder", osPathJoin [output_folder, "MNINonLinear",
      "summary_" ++ versionName]),
   ("vent_mask", osPathJoin [output_folder, "MNINonLinear",
      "vent_2mm_" ++ subject ++ "_mask_eroded.nii.gz"]),
   ("vent_mean_signal", osPathJoin [output_folder, "MNINonLinear", "Results",
      task, versionName, task ++ "_vent_mean.txt"]),
   ("wm_mask", osPathJoin [output_folder, "MNINonLinear",
      "wm_2mm_" ++ subject ++ "_mask_eroded.nii.gz"]),
   ("wm_mean_signal", osPathJoin [output_folder, "MNINonLinear", "Results",
      task, versionName, task ++ "_wm_mean.txt"])]

/-- Dictionary access `spec[key]` on one of the two spec dicts (every access
in the source uses a key that is present). -/
def specGet (spec : List (String × String)) (k : String) : String :=
  (spec.lookup k).getD ""

/-- Models the Python expression at lines 252 and 305: a CARET7DIR template
string combined with `os.environ` through the percent operator.  The template
contains no percent-style conversion specifier, so the mapping-format
operator returns the template unchanged: the result does not depend on the
environment at all. -/
def resolveWbPath (env : Env) : String := "\x7bCARET7DIR\x7d/wb_command"

/-- The parameters of `interface` (keyword arguments in the source).  Numeric
parameters are rationals; `band_stop_min`/`band_stop_max` are carried in their
rendered form because the source only ever interpolates them into strings.
`physio` is accepted by the CLI but swallowed by `interface`'s catch-all
`kwargs` and never used, so it is not a field here. -/
structure Args where
  subject : String
  task : String
  output_folder : String
  fd_threshold : ℚ
  filter_order : ℚ
  lower_bpf : ℚ
  upper_bpf : ℚ
  motion_filter_type : Option String
  motion_filter_option : ℚ
  motion_filter_order : ℚ
  band_stop_min : Option String
  band_stop_max : Option String
  skip_seconds : ℚ
  brain_radius : Option ℚ
  contiguous_frames : Option ℚ
  setup : Bool
  teardown : Bool
deriving DecidableEq

/-- One pass of the cleanup loops in `interface`: walk the `output_spec`
values in dict order and, for every value satisfying the selection predicate
`p` that exists on disk, perform `os.remove`.  An `os.remove` applied to a
directory raises `IsADirectoryError`, aborting the pass (effects already
performed stay in the trace). -/
def cleanupWhere (p : String → Bool) : FS → List String → List Effect × Except PyErr FS
  | fs, [] => ([], Except.ok fs)
  | fs, v :: rest =>
    if p v then
      if fsExists fs v then
        if fsIsDir fs v then ([], Except.error (PyErr.isADirectoryError v))
        else
          let r := cleanupWhere p (fsRemove fs v) rest
          (Effect.remove v :: r.1, r.2)
      else cleanupWhere p fs rest
    else cleanupWhere p fs rest

/-- Setup-mode cleanup (lines 235-239): `if task in value: continue; elif
os.path.exists(value): os.remove(value)` — removes existing paths whose
string does not contain the task name. -/
def setupCleanup (task : String) (fs : FS) (vals : List String) :
    List Effect × Except PyErr FS :=
  cleanupWhere (fun v => !pyIn task v) fs vals

/-- Task-mode cleanup (lines 271-273): `if task in value and
os.path.exists(value): os.remove(value)` — removes existing paths whose
string contains the task name. -/
def taskCleanup (task : String) (fs : FS) (vals : List String) :
    List Effect × Except PyErr FS :=
  cleanupWhere (fun v => pyIn task v) fs vals

/-- The six temporary volumes of `make_masks`, under
`wd = os.path.dirname(wm_mask_out)`, in dict key (insertion) order:
`wm_mask_L`, `wm_mask_R`, `vent_mask_L`, `vent_mask_R`, `wm_mask`,
`vent_mask`. -/
def makeMasksTempfiles (wm_mask_out : String) : List String :=
  let wd := dirname wm_mask_out
  [osPathJoin [wd, "tmp_left_wm.nii.gz"],
   osPathJoin [wd, "tmp_right_wm.nii.gz"],
   osPathJoin [wd, "tmp_left_vent.nii.gz"],
   osPathJoin [wd, "tmp_right_vent.nii.gz"],
   osPathJoin [wd, "tmp_wm.nii.gz"],
   osPathJoin [wd, "tmp_vent.nii.gz"]]

/-- The eight formatted-and-split `fslmaths` command lines of `make_masks`,
with the default label bounds (`wm_lt_R=2950, wm_ut_R=3050, wm_lt_L=3950,
wm_ut_L=4050, vent_lt_R=43, vent_ut_R=43, vent_lt_L=4, vent_ut_L=4`) and no
overrides, in source order.  Paths are assumed whitespace-free, so
`cmd.split()` yields exactly these token vectors. -/
def makeMasksCmds (segmentation wm_mask_out vent_mask_out : String) :
    List (List String) :=
  let wd := dirname wm_mask_out
  let wmR := osPathJoin [wd, "tmp_right_wm.nii.gz"]
  let wmL := osPathJoin [wd, "tmp_left_wm.nii.gz"]
  let wm := osPathJoin [wd, "tmp_wm.nii.gz"]
  let ventR := osPathJoin [wd, "tmp_right_vent.nii.gz"]
  let ventL := osPathJoin [wd, "tmp_left_vent.nii.gz"]
  let vent := osPathJoin [wd, "tmp_vent.nii.gz"]
  [["fslmaths", segmentation, "-thr", "2950", "-uthr", "3050", wmR],
   ["fslmaths", segmentation, "-thr", "3950", "-uthr", "4050", wmL],
   ["fslmaths", wmR, "-add", wmL, "-bin", wm],
   ["fslmaths", wm, "-kernel", "gauss", "2", "-ero", wm_mask_out],
   ["fslmaths", segmentation, "-thr", "43", "-uthr", "43", ventR],
   ["fslmaths", segmentation, "-thr", "4", "-uthr", "4", ventL],
   ["fslmaths", ventR, "-add", ventL, "-bin", vent],
   ["fslmaths", vent, "-kernel", "gauss", "2", "-ero", vent_mask_out]]

/-- The output file a formatted `fslmaths` command writes: its last token. -/
def cmdOutputs (cmds : List (List String)) : List String :=
  cmds.map (fun c => c.getLastD "")

/-- Runs a list of external commands in order.  Success model: each external
call succeeds and creates (or overwrites) its output file. -/
def runExternalCmds : FS → List (List String) → List Effect × FS
  | fs, [] => ([], fs)
  | fs, c :: rest =>
    let r := runExternalCmds (fsAddFile fs (c.getLastD "")) rest
    (Effect.call c :: r.1, r.2)

/-- The filesystem after `runExternalCmds`. -/
def fsAfterCmds (fs : FS) (cmds : List (List String)) : FS :=
  cmds.foldl (fun f c => fsAddFile f (c.getLastD "")) fs

/-- The cleanup loop of `make_masks` (lines 414-415): `os.remove` each
temporary file in dict key order. -/
def removePass : FS → List String → List Effect × Except PyErr FS
  | fs, [] => ([], Except.ok fs)
  | fs, t :: rest =>
    if fsExists fs t then
      if fsIsDir fs t then ([], Except.error (PyErr.isADirectoryError t))
      else
        let r := removePass (fsRemove fs t) rest
        (Effect.remove t :: r.1, r.2)
    else ([], Except.error (PyErr.fileNotFoundError t))

/-- The filesystem after removing every path of the list. -/
def fsRemoveAll (fs : FS) (ps : List String) : FS := ps.foldl fsRemove fs

/-- Models `make_masks(segmentation, wm_mask_out, vent_mask_out)` with default
label bounds: run the eight external commands in order, then remove the six
temporaries. -/
def makeMasksRun (segmentation wm_mask_out vent_mask_out : String) (fs : FS) :
    List Effect × Except PyErr FS :=
  let c := runExternalCmds fs (makeMasksCmds segmentation wm_mask_out vent_mask_out)
  let r := removePass c.2 (makeMasksTempfiles wm_mask_out)
  (c.1 ++ r.1, r.2)

/-- The filtered movement-regressor output path (lines 280-284):
`os.path.join(result_dir, '%s_bs%s_%s_filtered_%s' % (version_name,
band_stop_min, band_stop_max, movreg_basename))`. -/
def filteredMovRegPath (a : Args) : String :=
  osPathJoin
    [specGet (outputSpec a.output_folder a.task a.subject) "result_dir",
     versionName ++ "_bs" ++ optStr a.band_stop_min ++ "_" ++
       optStr a.band_stop_max ++ "_filtered_" ++
       basename (specGet (inputSpec a.output_folder a.task) "movement_regressors")]

/-- The movement-regressor path every post-filter step consumes: the filtered
path when a motion filter type is supplied (line 295 mutates `input_spec`),
the raw path otherwise. -/
def effectiveMovReg (a : Args) : String :=
  match a.motion_filter_type with
  | some _ => filteredMovRegPath a
  | none => specGet (inputSpec a.output_folder a.task) "movement_regressors"

/-- The `matlab_input` dict (lines 304-322), in source (insertion) order. -/
def matlabInput (a : Args) (env : Env) (trVal : ℚ) (movreg : String) :
    List (String × PyVal) :=
  let inSpec := inputSpec a.output_folder a.task
  let outSpec := outputSpec a.output_folder a.task a.subject
  [("path_wb_c", PyVal.vStr (resolveWbPath env)),
   ("bp_order", PyVal.vNum a.filter_order),
   ("lp_Hz", PyVal.vNum a.lower_bpf),
   ("hp_Hz", PyVal.vNum a.upper_bpf),
   ("TR", PyVal.vNum trVal),
   ("fd_th", PyVal.vNum a.fd_threshold),
   ("path_cii", PyVal.vStr (specGet inSpec "dtseries")),
   ("path_ex_sum", PyVal.vStr (specGet outSpec "summary_folder")),
   ("FNL_preproc_CIFTI_name", PyVal.vStr (specGet outSpec "output_dtseries")),
   ("fMRIName", PyVal.vStr a.task),
   ("file_wm", PyVal.vStr (specGet outSpec "wm_mean_signal")),
   ("file_vent", PyVal.vStr (specGet outSpec "vent_mean_signal")),
   ("file_mov_reg", PyVal.vStr movreg),
   ("motion_filename", PyVal.vStr (basename (specGet outSpec "output_motion_numbers"))),
   ("skip_seconds", PyVal.vNum a.skip_seconds),
   ("result_dir", PyVal.vStr (specGet outSpec "result_dir"))]

/-- The required EngineConfig keys of spec §6, in the serialization order of
the source dict. -/
def engineRequiredKeys : List String :=
  ["path_wb_c", "bp_order", "lp_Hz", "hp_Hz", "TR", "fd_th", "path_cii",
   "path_ex_sum", "FNL_preproc_CIFTI_name", "fMRIName", "file_wm",
   "file_vent", "file_mov_reg", "motion_filename", "skip_seconds",
   "result_dir"]

/-- The tail of the task branch after the optional motion-filter step (lines
297-330): the two `fslmeants` mean-signal extractions, the config write, the
progress print, and the engine invocation (which reads `MCRROOT` from the
environment; a missing key raises `KeyError` after the write and print).
`acc` is the trace accumulated so far.  External tools' own file outputs are
not folded into the returned filesystem; only the config write is (no claim
inspects the others). -/
def taskTail (here : String) (a : Args) (env : Env) (trVal : ℚ) (fs : FS)
    (acc : List Effect) (movreg : String) : List Effect × Except PyErr FS :=
  let inSpec := inputSpec a.output_folder a.task
  let outSpec := outputSpec a.output_folder a.task a.subject
  let fmri := specGet inSpec "fmri_volume"
  let c1 := Effect.call ["fslmeants", "-i", fmri, "-o",
    specGet outSpec "wm_mean_signal", "-m", specGet outSpec "wm_mask"]
  let c2 := Effect.call ["fslmeants", "-i", fmri, "-o",
    specGet outSpec "vent_mean_signal", "-m", specGet outSpec "vent_mask"]
  let cfgPath := specGet outSpec "config"
  let w := Effect.writeJson cfgPath (matlabInput a env trVal movreg)
  let rmsg := Effect.msg ("running " ++ versionName ++ " matlab on " ++ a.task)
  match envGet env "MCRROOT" with
  | none => (acc ++ [c1, c2, w, rmsg], Except.error (PyErr.keyError "MCRROOT"))
  | some mcr =>
    (acc ++ [c1, c2, w, rmsg,
      Effect.call [osPathJoin [here, "bin", "run_FNL_preproc_Matlab.sh"], mcr, cfgPath]],
     Except.ok (fsAddFile fs cfgPath))

/-- Models `interface` (lines 143-330).  `here` is the install directory of
the script, `trVal` the repetition time the external `fslval` call reports.
The three branches mirror the source: setup (cleanup, mkdir of the result
directory when absent, `make_masks`), teardown (read the repetition time,
then the config-dict assembly at line 253 evaluates the undefined name
`repitition_time` — a `NameError`), and the task branch (assert the ventricle
mask exists, cleanup, read the repetition time, optionally filter motion
regressors — building the command vector reads `MCROOT` from the environment —
then the common tail). -/
def runInterface (here : String) (a : Args) (env : Env) (trVal : ℚ) (fs : FS) :
    List Effect × Except PyErr FS :=
  let inSpec := inputSpec a.output_folder a.task
  let outSpec := outputSpec a.output_folder a.task a.subject
  if a.setup then
    let pmsg := Effect.msg ("removing old " ++ versionName ++ " outputs")
    match setupCleanup a.task fs (outSpec.map Prod.snd) with
    | (tr1, Except.error e) => (pmsg :: tr1, Except.error e)
    | (tr1, Except.ok fs1) =>
      let resultDir := specGet outSpec "result_dir"
      let mk := if fsExists fs1 resultDir then (([] : List Effect), fs1)
                else ([Effect.mkdir resultDir], fsAddDir fs1 resultDir)
      let m := makeMasksRun (specGet inSpec "segmentation")
        (specGet outSpec "wm_mask") (specGet outSpec "vent_mask") mk.2
      (pmsg :: (tr1 ++ mk.1 ++ m.1), m.2)
  else if a.teardown then
    ([Effect.call ["fslval", specGet inSpec "fmri_volume", "pixdim4"]],
     Except.error (PyErr.nameError "repitition_time"))
  else
    if fsExists fs (specGet outSpec "vent_mask") then
      let pmsg := Effect.msg ("removing old " ++ versionName ++ " outputs for " ++ a.task)
      match taskCleanup a.task fs (outSpec.map Prod.snd) with
      | (tr1, Except.error e) => (pmsg :: tr1, Except.error e)
      | (tr1, Except.ok fs1) =>
        let trCall := Effect.call ["fslval", specGet inSpec "fmri_volume", "pixdim4"]
        match a.motion_filter_type with
        | some ftype =>
          match envGet env "MCROOT" with
          | none => (pmsg :: (tr1 ++ [trCall]), Except.error (PyErr.keyError "MCROOT"))
          | some mcroot =>
            let fcall := Effect.call
              [osPathJoin [here, "bin", "run_filtered_movement_regressors.sh"],
               mcroot, specGet inSpec "movement_regressors", ratStr trVal,
               ratStr a.motion_filter_option, ratStr a.motion_filter_order,
               optStr a.band_stop_min, ftype, optStr a.band_stop_min,
               optStr a.band_stop_max, filteredMovRegPath a]
            taskTail here a env trVal fs1 (pmsg :: (tr1 ++ [trCall, fcall]))
              (filteredMovRegPath a)
        | none =>
          taskTail here a env trVal fs1 (pmsg :: (tr1 ++ [trCall]))
            (specGet inSpec "movement_regressors")
    else
      ([], Except.error (PyErr.assertionError
        "must run this script with --setup flag prior to running individual tasks."))

/-- The values `argparse` hands to `_cli` after parsing (lines 17-18):
required strings, typed optionals, and the documented defaults already
applied by the parser (in particular `contiguous_frames` always carries a
value, `9` unless overridden). -/
structure ParsedArgs where
  subject : String
  task : String
  output_folder : String
  fd_threshold : ℚ
  filter_order : ℚ
  lower_bpf : ℚ
  upper_bpf : ℚ
  motion_filter_type : Option String
  physio : Option String
  motion_filter_option : ℚ
  motion_filter_order : ℚ
  band_stop_min : Option String
  band_stop_max : Option String
  skip_seconds : ℚ
  contiguous_frames : ℚ
  brain_radius : Option ℚ
  setup : Bool
  teardown : Bool
deriving DecidableEq

/-- Models `_cli` (lines 20-40): the `kwargs` dict it builds and passes to
`interface`.  The dict holds exactly the listed seventeen entries;
`contiguous_frames` is not among them, so `interface`'s `contiguous_frames`
parameter keeps its default `None`.  (`physio` is in the dict but lands in
`interface`'s catch-all `kwargs` and is dropped.) -/
def cliToInterfaceArgs (p : ParsedArgs) : Args :=
  { subject := p.subject
    task := p.task
    output_folder := p.output_folder
    fd_threshold := p.fd_threshold
    filter_order := p.filter_order
    lower_bpf := p.lower_bpf
    upper_bpf := p.upper_bpf
    motion_filter_type := p.motion_filter_type
    motion_filter_option := p.motion_filter_option
    motion_filter_order := p.motion_filter_order
    band_stop_min := p.band_stop_min
    band_stop_max := p.band_stop_max
    skip_seconds := p.skip_seconds
    brain_radius := p.brain_radius
    contiguous_frames := none
    setup := p.setup
    teardown := p.teardown }

/-- Whether an effect is a config write at the given path. -/
def writesAt (p : String) : Effect → Bool
  | Effect.writeJson q _ => q == p
  | _ => false

/-- Concrete task-mode run parameters (witness material, C1). -/
def args1 : Args :=
  { subject := "sub01", task := "task-rest", output_folder := "/data/out",
    fd_threshold := 3/10, filter_order := 2, lower_bpf := 9/1000,
    upper_bpf := 8/100, motion_filter_type := none, motion_filter_option := 5,
    motion_filter_order := 4, band_stop_min := none, band_stop_max := none,
    skip_seconds := 5, brain_radius := none, contiguous_frames := none,
    setup := false, teardown := false }

/-- Concrete output-spec values environment (witness material, C2). -/
def fsW2 : FS :=
  [("/o/MNINonLinear/summary_DCANBOLDProc_v4.0.0", false),
   ("/o/MNINonLinear/Results/task-rest/DCANBOLDProc_v4.0.0/motion_numbers.txt",
    false)]

/-- Concrete task-mode run parameters (witness material, C3). -/
def args3 : Args :=
  { subject := "subA", task := "task-nback", output_folder := "/study/out",
    fd_threshold := 1/5, filter_order := 3, lower_bpf := 1/125,
    upper_bpf := 1/10, motion_filter_type := none, motion_filter_option := 5,
    motion_filter_order := 4, band_stop_min := none, band_stop_max := none,
    skip_seconds := 7, brain_radius := none, contiguous_frames := none,
    setup := false, teardown := false }

/-- Filesystem holding only the C3 subject's ventricle mask. -/
def fs3 : FS := [("/study/out/MNINonLinear/vent_2mm_subA_mask_eroded.nii.gz", false)]

/-- Environment for the C3 witness run. -/
def env3 : Env := [("MCRROOT", "/opt/mcr/v91")]

/-- Concrete task-mode run with a notch motion filter (witness material, C4). -/
def args4 : Args :=
  { subject := "subB", task := "task-motor", output_folder := "/proj/out",
    fd_threshold := 3/10, filter_order := 2, lower_bpf := 9/1000,
    upper_bpf := 8/100, motion_filter_type := some "notch",
    motion_filter_option := 5, motion_filter_order := 4,
    band_stop_min := some "18.582", band_stop_max := some "25.726",
    skip_seconds := 5, brain_radius := none, contiguous_frames := none,
    setup := false, teardown := false }

/-- Filesystem holding only the C4 subject's ventricle mask. -/
def fs4 : FS := [("/proj/out/MNINonLinear/vent_2mm_subB_mask_eroded.nii.gz", false)]

/-- Environment for the C4 witness run (both runtime roots present). -/
def env4 : Env := [("MCRROOT", "/opt/mcr/v91"), ("MCROOT", "/opt/mcr")]

/-- Concrete run parameters for C5. -/
def args5 : Args :=
  { subject := "subC", task := "task-rest", output_folder := "/c5/out",
    fd_threshold := 3/10, filter_order := 2, lower_bpf := 9/1000,
    upper_bpf := 8/100, motion_filter_type := none, motion_filter_option := 5,
    motion_filter_order := 4, band_stop_min := none, band_stop_max := none,
    skip_seconds := 5, brain_radius := none, contiguous_frames := none,
    setup := false, teardown := false }

/-- Environment for C5: CARET7DIR is set, yet the code ignores it. -/
def env5 : Env := [("CARET7DIR", "/opt/workbench/bin")]

/-- The end-to-end scenario parameters of C7 (subject sub01, task task-rest,
output folder /data/out, all defaults, no motion filter). -/
def args7 : Args :=
  { subject := "sub01", task := "task-rest", output_folder := "/data/out",
    fd_threshold := 3/10, filter_order := 2, lower_bpf := 9/1000,
    upper_bpf := 8/100, motion_filter_type := none, motion_filter_option := 5,
    motion_filter_order := 4, band_stop_min := none, band_stop_max := none,
    skip_seconds := 5, brain_radius := none, contiguous_frames := none,
    setup := false, teardown := false }

/-- Filesystem for the C7 run: setup has produced the ventricle mask. -/
def fs7 : FS := [("/data/out/MNINonLinear/vent_2mm_sub01_mask_eroded.nii.gz", false)]

/-- Environment for the C7 run. -/
def env7 : Env := [("MCRROOT", "/opt/mcr/v91")]

/-- The config path C7 claims: task-named json in the versioned directory. -/
def c7ClaimedConfigPath : String :=
  "/data/out/MNINonLinear/Results/task-rest/DCANBOLDProc_v4.0.0/task-rest_mat_config.json"

/-- The config path the code computes: version-named json. -/
def c7ActualConfigPath : String :=
  "/data/out/MNINonLinear/Results/task-rest/DCANBOLDProc_v4.0.0/DCANBOLDProc_v4.0.0_mat_config.json"

/-- The raw movement-regressor path of the C7 run. -/
def c7MovReg : String :=
  "/data/out/MNINonLinear/Results/task-rest/Movement_Regressors.txt"

/-- Mask-builder inputs (witness material, C8). -/
def segW : String := "/d/MNINonLinear/ROIs/wmparc.2.nii.gz"

/-- White-matter mask output (witness material, C8). -/
def wmW : String := "/d/MNINonLinear/wm_2mm_s1_mask_eroded.nii.gz"

/-- Ventricle mask output (witness material, C8). -/
def ventW : String := "/d/MNINonLinear/vent_2mm_s1_mask_eroded.nii.gz"

/-- Parsed CLI arguments with the parser's documented defaults, in particular
`contiguous_frames = 9` (witness material, C9). -/
def parsed9 : ParsedArgs :=
  { subject := "sub01", task := "task-rest", output_folder := "/data/out",
    fd_threshold := 3/10, filter_order := 2, lower_bpf := 9/1000,
    upper_bpf := 8/100, motion_filter_type := none, physio := none,
    motion_filter_option := 5, motion_filter_order := 4,
    band_stop_min := none, band_stop_max := none, skip_seconds := 5,
    contiguous_frames := 9, brain_radius := none, setup := false,
    teardown := true }

/-- Setup-mode run parameters (witness material, C10). -/
def args10 : Args :=
  { subject := "sub01", task := "task-rest", output_folder := "/data/out",
    fd_threshold := 3/10, filter_order := 2, lower_bpf := 9/1000,
    upper_bpf := 8/100, motion_filter_type := none, motion_filter_option := 5,
    motion_filter_order := 4, band_stop_min := none, band_stop_max := none,
    skip_seconds := 5, brain_radius := none, contiguous_frames := none,
    setup := true, teardown := false }

/-- Filesystem for the C10 witness: the summary folder survives from a prior
run as a directory. -/
def fs10 : FS := [("/data/out/MNINonLinear/summary_DCANBOLDProc_v4.0.0", true)]

lemma fsLookup_cons (k : String) (b : Bool) (fs : FS) (q : String) :
    fsLookup ((k, b) :: fs) q = if q = k then some b else fsLookup fs q := by
  by_cases h : q = k
  · simp [fsLookup, List.lookup, h]
  · have hb : (q == k) = false := beq_eq_false_iff_ne.mpr h
    simp [fsLookup, List.lookup, h, hb]

lemma fsLookup_remove (fs : FS) (u q : String) :
    fsLookup (fsRemove fs u) q = if q = u then none else fsLookup fs q := by
  induction fs with
  | nil => by_cases h : q = u <;> simp [fsRemove, fsLookup, List.lookup, h]
  | cons e rest ih =>
    obtain ⟨k, b⟩ := e
    by_cases hk : k = u <;> by_cases hq : q = k <;>
      simp_all [fsRemove, List.filter_cons, fsLookup_cons, bne_iff_ne]

lemma fsExists_remove_ne (fs : FS) (u q : String) (h : q ≠ u) :
    fsExists (fsRemove fs u) q = fsExists fs q := by
  simp [fsExists, fsLookup_remove, h]

lemma fsIsDir_remove_false (fs : FS) (u q : String) (h : fsIsDir fs q = false) :
    fsIsDir (fsRemove fs u) q = false := by
  by_cases hq : q = u <;> simp [fsIsDir, fsLookup_remove, hq] <;>
    simpa [fsIsDir, fsLookup_remove, hq] using h

lemma fsIsDir_remove_ne (fs : FS) (u q : String) (h : q ≠ u) :
    fsIsDir (fsRemove fs u) q = fsIsDir fs q := by
  simp [fsIsDir, fsLookup_remove, h]

lemma fsExists_of_isDir (fs : FS) (q : String) (h : fsIsDir fs q = true) :
    fsExists fs q = true := by
  rcases hl : fsLookup fs q with _ | b
  · simp [fsIsDir, hl] at h
  · simp [fsExists, hl]

lemma cleanupWhere_cons_dir (p : String → Bool) (fs : FS) (v : String)
    (rest : List String) (hp : p v = true) (hex : fsExists fs v = true)
    (hdir : fsIsDir fs v = true) :
    cleanupWhere p fs (v :: rest) =
      ([], Except.error (PyErr.isADirectoryError v)) := by
  simp [cleanupWhere, hp, hex, hdir]

lemma cleanupWhere_cons_remove (p : String → Bool) (fs : FS) (v : String)
    (rest : List String) (hp : p v = true) (hex : fsExists fs v = true)
    (hdir : fsIsDir fs v = false) :
    cleanupWhere p fs (v :: rest) =
      (Effect.remove v :: (cleanupWhere p (fsRemove fs v) rest).1,
       (cleanupWhere p (fsRemove fs v) rest).2) := by
  simp [cleanupWhere, hp, hex, hdir]

lemma cleanupWhere_cons_absent (p : String → Bool) (fs : FS) (v : String)
    (rest : List String) (hex : fsExists fs v = false) :
    cleanupWhere p fs (v :: rest) = cleanupWhere p fs rest := by
  by_cases hp : p v = true <;> simp [cleanupWhere, hp, hex]

lemma cleanupWhere_cons_skip (p : String → Bool) (fs : FS) (v : String)
    (rest : List String) (hp : p v = false) :
    cleanupWhere p fs (v :: rest) = cleanupWhere p fs rest := by
  simp [cleanupWhere, hp]

lemma cleanupWhere_trace_removes (p : String → Bool) :
    ∀ (vals : List String) (fs : FS) (e : Effect),
      e ∈ (cleanupWhere p fs vals).1 → ∃ w, e = Effect.remove w := by
  intro vals
  induction vals with
  | nil => intro fs e h; simp [cleanupWhere] at h
  | cons v rest ih =>
    intro fs e h
    by_cases hp : p v = true
    · by_cases hex : fsExists fs v = true
      · by_cases hdir : fsIsDir fs v = true
        · rw [cleanupWhere_cons_dir p fs v rest hp hex hdir] at h
          simp at h
        · rw [cleanupWhere_cons_remove p fs v rest hp hex
            (by simpa using hdir)] at h
          rcases List.mem_cons.mp h with h1 | h1
          · exact ⟨v, h1⟩
          · exact ih _ e h1
      · rw [cleanupWhere_cons_absent p fs v rest (by simpa using hex)] at h
        exact ih _ e h
    · rw [cleanupWhere_cons_skip p fs v rest (by simpa using hp)] at h
      exact ih _ e h

lemma cleanupWhere_remove_mem (p : String → Bool) :
    ∀ (vals : List String) (fs : FS) (w : String),
      Effect.remove w ∈ (cleanupWhere p fs vals).1 → w ∈ vals := by
  intro vals
  induction vals with
  | nil => intro fs w h; simp [cleanupWhere] at h
  | cons v rest ih =>
    intro fs w h
    by_cases hp : p v = true
    · by_cases hex : fsExists fs v = true
      · by_cases hdir : fsIsDir fs v = true
        · rw [cleanupWhere_cons_dir p fs v rest hp hex hdir] at h
          simp at h
        · rw [cleanupWhere_cons_remove p fs v rest hp hex
            (by simpa using hdir)] at h
          rcases List.mem_cons.mp h with h1 | h1
          · have : w = v := by simpa [Effect.remove.injEq] using h1
            simp [this]
          · exact List.mem_cons_of_mem _ (ih _ w h1)
      · rw [cleanupWhere_cons_absent p fs v rest (by simpa using hex)] at h
        exact List.mem_cons_of_mem _ (ih _ w h)
    · rw [cleanupWhere_cons_skip p fs v rest (by simpa using hp)] at h
      exact List.mem_cons_of_mem _ (ih _ w h)

lemma cleanupWhere_remove_iff (p : String → Bool) :
    ∀ (vals : List String) (fs : FS), vals.Nodup →
      (∀ v ∈ vals, fsIsDir fs v = false) →
      ∀ v ∈ vals,
        (Effect.remove v ∈ (cleanupWhere p fs vals).1 ↔
          (p v = true ∧ fsExists fs v = true)) := by
  intro vals
  induction vals with
  | nil => intro fs _ _ v hv; simp at hv
  | cons u rest ih =>
    intro fs hnd hfile v hv
    have hu : fsIsDir fs u = false := hfile u (List.mem_cons_self u rest)
    have hndr : rest.Nodup := (List.nodup_cons.mp hnd).2
    have hur : u ∉ rest := (List.nodup_cons.mp hnd).1
    by_cases hp : p u = true
    · by_cases hex : fsExists fs u = true
      · have hstep := cleanupWhere_cons_remove p fs u rest hp hex hu
        have hfr : ∀ w ∈ rest, fsIsDir (fsRemove fs u) w = false :=
          fun w hw => fsIsDir_remove_false fs u w (hfile w (List.mem_cons_of_mem _ hw))
        rcases List.mem_cons.mp hv with hvu | hvr
        · subst hvu
          constructor
          · intro _; exact ⟨hp, hex⟩
          · intro _
            rw [hstep]
            exact List.mem_cons_self _ _
        · have hvne : v ≠ u := fun h => hur (h ▸ hvr)
          have hiff := ih (fsRemove fs u) hndr hfr v hvr
          constructor
          · intro hmem
            rw [hstep] at hmem
            rcases List.mem_cons.mp hmem with h1 | h1
            · exact absurd (by simpa [Effect.remove.injEq] using h1) hvne
            · have h2 := hiff.mp h1
              exact ⟨h2.1, by rw [← fsExists_remove_ne fs u v hvne]; exact h2.2⟩
          · intro hc
            rw [hstep]
            refine List.mem_cons_of_mem _ (hiff.mpr ⟨hc.1, ?_⟩)
            rw [fsExists_remove_ne fs u v hvne]; exact hc.2
      · have hstep := cleanupWhere_cons_absent p fs u rest (by simpa using hex)
        rcases List.mem_cons.mp hv with hvu | hvr
        · subst hvu
          constructor
          · intro hmem
            rw [hstep] at hmem
            exact absurd (cleanupWhere_remove_mem p rest fs v hmem) hur
          · intro hc; exact absurd hc.2 (by simpa using hex)
        · have hiff := ih fs hndr (fun w hw => hfile w (List.mem_cons_of_mem _ hw)) v hvr
          rw [hstep]
          exact hiff
    · have hstep := cleanupWhere_cons_skip p fs u rest (by simpa using hp)
      rcases List.mem_cons.mp hv with hvu | hvr
      · subst hvu
        constructor
        · intro hmem
          rw [hstep] at hmem
          exact absurd (cleanupWhere_remove_mem p rest fs v hmem) hur
        · intro hc; exact absurd hc.1 hp
      · have hiff := ih fs hndr (fun w hw => hfile w (List.mem_cons_of_mem _ hw)) v hvr
        rw [hstep]
        exact hiff

lemma cleanupWhere_dir_error (p : String → Bool) :
    ∀ (vals : List String) (fs : FS) (d : String), d ∈ vals → p d = true →
      fsIsDir fs d = true →
      ∃ q, (cleanupWhere p fs vals).2 = Except.error (PyErr.isADirectoryError q) := by
  intro vals
  induction vals with
  | nil => intro fs d hd; simp at hd
  | cons u rest ih =>
    intro fs d hd hpd hdird
    by_cases hp : p u = true
    · by_cases hex : fsExists fs u = true
      · by_cases hdir : fsIsDir fs u = true
        · exact ⟨u, by rw [cleanupWhere_cons_dir p fs u rest hp hex hdir]⟩
        · have hdu : d ≠ u := fun h => by
            rw [h] at hdird; exact absurd hdird (by simpa using hdir)
          have hdr : d ∈ rest := (List.mem_cons.mp hd).resolve_left hdu
          obtain ⟨q, hq⟩ := ih (fsRemove fs u) d hdr hpd
            (by rw [fsIsDir_remove_ne fs u d hdu]; exact hdird)
          refine ⟨q, ?_⟩
          rw [cleanupWhere_cons_remove p fs u rest hp hex (by simpa using hdir)]
          exact hq
      · have hdu : d ≠ u := fun h => by
          rw [h] at hdird
          exact absurd (fsExists_of_isDir fs u hdird) (by simpa using hex)
        have hdr : d ∈ rest := (List.mem_cons.mp hd).resolve_left hdu
        obtain ⟨q, hq⟩ := ih fs d hdr hpd hdird
        refine ⟨q, ?_⟩
        rw [cleanupWhere_cons_absent p fs u rest (by simpa using hex)]
        exact hq
    · by_cases hdu : d = u
      · rw [hdu] at hpd; exact absurd hpd hp
      · have hdr : d ∈ rest := (List.mem_cons.mp hd).resolve_left hdu
        obtain ⟨q, hq⟩ := ih fs d hdr hpd hdird
        refine ⟨q, ?_⟩
        rw [cleanupWhere_cons_skip p fs u rest (by simpa using hp)]
        exact hq

lemma runExternalCmds_eq :
    ∀ (cmds : List (List String)) (fs : FS),
      runExternalCmds fs cmds = (cmds.map Effect.call, fsAfterCmds fs cmds) := by
  intro cmds
  induction cmds with
  | nil => intro fs; simp [runExternalCmds, fsAfterCmds]
  | cons c rest ih =>
    intro fs
    simp [runExternalCmds, fsAfterCmds, List.foldl_cons, ih]

lemma fsLookup_afterCmds_not_mem :
    ∀ (cmds : List (List String)) (fs : FS) (q : String),
      q ∉ cmdOutputs cmds → fsLookup (fsAfterCmds fs cmds) q = fsLookup fs q := by
  intro cmds
  induction cmds with
  | nil => intro fs q _; simp [fsAfterCmds]
  | cons c rest ih =>
    intro fs q hq
    have hq1 : q ≠ c.getLastD "" := fun h => hq (by simp [cmdOutputs, h])
    have hq2 : q ∉ cmdOutputs rest := fun h => hq (by simp [cmdOutputs] at h ⊢; exact Or.inr h)
    have := ih (fsAddFile fs (c.getLastD "")) q hq2
    rw [fsAfterCmds, List.foldl_cons]
    rw [show List.foldl (fun f c => fsAddFile f (c.getLastD "")) (fsAddFile fs (c.getLastD "")) rest = fsAfterCmds (fsAddFile fs (c.getLastD "")) rest from rfl]
    rw [this, fsAddFile, fsLookup_cons]
    rw [if_neg hq1]

lemma fsLookup_afterCmds_mem :
    ∀ (cmds : List (List String)) (fs : FS) (q : String),
      q ∈ cmdOutputs cmds → fsLookup (fsAfterCmds fs cmds) q = some false := by
  intro cmds
  induction cmds with
  | nil => intro fs q h; simp [cmdOutputs] at h
  | cons c rest ih =>
    intro fs q hq
    rw [fsAfterCmds, List.foldl_cons]
    rw [show List.foldl (fun f c => fsAddFile f (c.getLastD "")) ((fun f c => fsAddFile f (c.getLastD "")) fs c) rest = fsAfterCmds (fsAddFile fs (c.getLastD "")) rest from rfl]
    by_cases hr : q ∈ cmdOutputs rest
    · exact ih (fsAddFile fs (c.getLastD "")) q hr
    · have hq1 : q = c.getLastD "" := by
        rcases (by simpa [cmdOutputs] using hq : q = c.getLastD "" ∨ q ∈ cmdOutputs rest) with h | h
        · exact h
        · exact absurd h hr
      rw [fsLookup_afterCmds_not_mem rest (fsAddFile fs (c.getLastD "")) q hr]
      rw [fsAddFile, fsLookup_cons]
      simp [hq1]

lemma removePass_eq :
    ∀ (ps : List String) (fs : FS), ps.Nodup →
      (∀ t ∈ ps, fsLookup fs t = some false) →
      removePass fs ps = (ps.map Effect.remove, Except.ok (fsRemoveAll fs ps)) := by
  intro ps
  induction ps with
  | nil => intro fs _ _; simp [removePass, fsRemoveAll]
  | cons t rest ih =>
    intro fs hnd hall
    have ht : fsLookup fs t = some false := hall t (List.mem_cons_self t rest)
    have hex : fsExists fs t = true := by simp [fsExists, ht]
    have hdir : fsIsDir fs t = false := by simp [fsIsDir, ht]
    have htr : t ∉ rest := (List.nodup_cons.mp hnd).1
    have hrec := ih (fsRemove fs t) (List.nodup_cons.mp hnd).2 (by
      intro u hu
      have hut : u ≠ t := fun h => htr (h ▸ hu)
      rw [fsLookup_remove]
      simp [hut, hall u (List.mem_cons_of_mem _ hu)])
    rw [removePass]
    simp only [hex, hdir, if_true, if_false, Bool.false_eq_true]
    rw [hrec]
    simp [fsRemoveAll, List.foldl_cons]

lemma fsLookup_removeAll_not_mem :
    ∀ (ps : List String) (fs : FS) (q : String),
      q ∉ ps → fsLookup (fsRemoveAll fs ps) q = fsLookup fs q := by
  intro ps
  induction ps with
  | nil => intro fs q _; simp [fsRemoveAll]
  | cons t rest ih =>
    intro fs q hq
    have hq1 : q ≠ t := fun h => hq (by simp [h])
    have hq2 : q ∉ rest := fun h => hq (List.mem_cons_of_mem _ h)
    rw [fsRemoveAll, List.foldl_cons]
    rw [show List.foldl fsRemove (fsRemove fs t) rest = fsRemoveAll (fsRemove fs t) rest from rfl]
    rw [ih (fsRemove fs t) q hq2, fsLookup_remove]
    simp [hq1]

lemma fsLookup_removeAll_mem :
    ∀ (ps : List String) (fs : FS) (q : String),
      q ∈ ps → fsLookup (fsRemoveAll fs ps) q = none := by
  intro ps
  induction ps with
  | nil => intro fs q h; simp at h
  | cons t rest ih =>
    intro fs q hq
    rw [fsRemoveAll, List.foldl_cons]
    rw [show List.foldl fsRemove (fsRemove fs t) rest = fsRemoveAll (fsRemove fs t) rest from rfl]
    by_cases hr : q ∈ rest
    · exact ih (fsRemove fs t) q hr
    · have hq1 : q = t := (List.mem_cons.mp hq).resolve_right hr
      rw [fsLookup_removeAll_not_mem rest (fsRemove fs t) q hr, fsLookup_remove]
      simp [hq1]

lemma runInterface_task_writes_config (here : String) (a : Args) (env : Env)
    (trVal : ℚ) (fs : FS) (tr1 : List Effect) (fs1 : FS) (mcr : String)
    (hs : a.setup = false) (ht : a.teardown = false)
    (hv : fsExists fs
      (specGet (outputSpec a.output_folder a.task a.subject) "vent_mask") = true)
    (hc : taskCleanup a.task fs
      ((outputSpec a.output_folder a.task a.subject).map Prod.snd)
      = (tr1, Except.ok fs1))
    (hm : envGet env "MCRROOT" = some mcr)
    (hf : a.motion_filter_type = none ∨ ∃ mc, envGet env "MCROOT" = some mc) :
    Effect.writeJson (specGet (outputSpec a.output_folder a.task a.subject) "config")
      (matlabInput a env trVal (effectiveMovReg a))
      ∈ (runInterface here a env trVal fs).1 := by
  cases hft : a.motion_filter_type with
  | none =>
    simp [runInterface, hs, ht, hv, hc, hft, taskTail, hm, effectiveMovReg]
  | some ftype =>
    rcases hf with hnone | ⟨mc, hmc⟩
    · rw [hft] at hnone; cases hnone
    · simp [runInterface, hs, ht, hv, hc, hft, hmc, taskTail, hm, effectiveMovReg]

/-- C1: in task mode (neither setup nor teardown), if the ventricle-mask
output path does not exist, `interface` fails with the assertion error
("must run this script with --setup flag prior to running individual
tasks.") before any external tool is invoked and before any cleanup or file
write occurs: the effect trace of the run is empty. -/
theorem c1_task_mode_asserts_vent_mask (here : String) (a : Args) (env : Env)
    (trVal : ℚ) (fs : FS) (hs : a.setup = false) (ht : a.teardown = false)
    (hv : fsExists fs
      (specGet (outputSpec a.output_folder a.task a.subject) "vent_mask") = false) :
    runInterface here a env trVal fs =
      ([], Except.error (PyErr.assertionError
        "must run this script with --setup flag prior to running individual tasks.")) := by
  simp [runInterface, hs, ht, hv]

/-- Witness for C1: concrete task-mode run against an empty filesystem. -/
theorem c1_witness :
    fsExists ([] : FS)
      (specGet (outputSpec args1.output_folder args1.task args1.subject) "vent_mask") = false ∧
    runInterface "/opt/dcan" args1 ([] : Env) (4/5) ([] : FS) =
      ([], Except.error (PyErr.assertionError
        "must run this script with --setup flag prior to running individual tasks.")) :=
  ⟨by decide,
   c1_task_mode_asserts_vent_mask "/opt/dcan" args1 ([] : Env) (4/5) ([] : FS)
     rfl rfl (by decide)⟩

/-- C2: over nodup output-spec values none of which is a directory, the
setup-mode cleanup pass removes an existing path iff its string does not
contain the task name, and the task-mode cleanup pass removes an existing
path iff its string does contain the task name. -/
theorem c2_cleanup_selectivity (output_folder task subject : String) (fs : FS)
    (hnd : ((outputSpec output_folder task subject).map Prod.snd).Nodup)
    (hfile : ∀ v ∈ (outputSpec output_folder task subject).map Prod.snd,
      fsIsDir fs v = false)
    (v : String)
    (hv : v ∈ (outputSpec output_folder task subject).map Prod.snd) :
    (Effect.remove v ∈
        (setupCleanup task fs ((outputSpec output_folder task subject).map Prod.snd)).1 ↔
      (pyIn task v = false ∧ fsExists fs v = true)) ∧
    (Effect.remove v ∈
        (taskCleanup task fs ((outputSpec output_folder task subject).map Prod.snd)).1 ↔
      (pyIn task v = true ∧ fsExists fs v = true)) := by
  constructor
  · have h := cleanupWhere_remove_iff (fun w => !pyIn task w) _ fs hnd hfile v hv
    simpa [setupCleanup] using h
  · have h := cleanupWhere_remove_iff (fun w => pyIn task w) _ fs hnd hfile v hv
    simpa [taskCleanup] using h

/-- Witness for C2: the summary folder (no task name in its path) is removed
by a setup pass exactly because it exists and lacks the task name. -/
theorem c2_witness :
    (∀ w ∈ (outputSpec "/o" "task-rest" "s1").map Prod.snd, fsIsDir fsW2 w = false) ∧
    (Effect.remove "/o/MNINonLinear/summary_DCANBOLDProc_v4.0.0" ∈
        (setupCleanup "task-rest" fsW2
          ((outputSpec "/o" "task-rest" "s1").map Prod.snd)).1 ↔
      (pyIn "task-rest" "/o/MNINonLinear/summary_DCANBOLDProc_v4.0.0" = false ∧
       fsExists fsW2 "/o/MNINonLinear/summary_DCANBOLDProc_v4.0.0" = true)) :=
  ⟨by decide,
   (c2_cleanup_selectivity "/o" "task-rest" "s1" fsW2 (by decide) (by decide)
     "/o/MNINonLinear/summary_DCANBOLDProc_v4.0.0" (by decide)).1⟩

/-- C3: every task-mode run that reaches the engine invocation writes the
EngineConfig at the computed config path; parsed back (association lookup on
the serialized flat dict), it contains exactly one entry for each required
key, each holding the exact value supplied by the CLI or the computed specs
of that run. -/
theorem c3_engine_config_exact (here : String) (a : Args) (env : Env)
    (trVal : ℚ) (fs : FS) (tr1 : List Effect) (fs1 : FS) (mcr : String)
    (hs : a.setup = false) (ht : a.teardown = false)
    (hv : fsExists fs
      (specGet (outputSpec a.output_folder a.task a.subject) "vent_mask") = true)
    (hc : taskCleanup a.task fs
      ((outputSpec a.output_folder a.task a.subject).map Prod.snd)
      = (tr1, Except.ok fs1))
    (hm : envGet env "MCRROOT" = some mcr)
    (hf : a.motion_filter_type = none ∨ ∃ mc, envGet env "MCROOT" = some mc) :
    Effect.writeJson (specGet (outputSpec a.output_folder a.task a.subject) "config")
        (matlabInput a env trVal (effectiveMovReg a))
      ∈ (runInterface here a env trVal fs).1 ∧
    (matlabInput a env trVal (effectiveMovReg a)).map Prod.fst = engineRequiredKeys ∧
    engineRequiredKeys.Nodup ∧
    (matlabInput a env trVal (effectiveMovReg a)).lookup "path_wb_c" =
      some (PyVal.vStr (resolveWbPath env)) ∧
    (matlabInput a env trVal (effectiveMovReg a)).lookup "bp_order" =
      some (PyVal.vNum a.filter_order) ∧
    (matlabInput a env trVal (effectiveMovReg a)).lookup "lp_Hz" =
      some (PyVal.vNum a.lower_bpf) ∧
    (matlabInput a env trVal (effectiveMovReg a)).lookup "hp_Hz" =
      some (PyVal.vNum a.upper_bpf) ∧
    (matlabInput a env trVal (effectiveMovReg a)).lookup "TR" =
      some (PyVal.vNum trVal) ∧
    (matlabInput a env trVal (effectiveMovReg a)).lookup "fd_th" =
      some (PyVal.vNum a.fd_threshold) ∧
    (matlabInput a env trVal (effectiveMovReg a)).lookup "path_cii" =
      some (PyVal.vStr (specGet (inputSpec a.output_folder a.task) "dtseries")) ∧
    (matlabInput a env trVal (effectiveMovReg a)).lookup "path_ex_sum" =
      some (PyVal.vStr (specGet (outputSpec a.output_folder a.task a.subject) "summary_folder")) ∧
    (matlabInput a env trVal (effectiveMovReg a)).lookup "FNL_preproc_CIFTI_name" =
      some (PyVal.vStr (specGet (outputSpec a.output_folder a.task a.subject) "output_dtseries")) ∧
    (matlabInput a env trVal (effectiveMovReg a)).lookup "fMRIName" =
      some (PyVal.vStr a.task) ∧
    (matlabInput a env trVal (effectiveMovReg a)).lookup "file_wm" =
      some (PyVal.vStr (specGet (outputSpec a.output_folder a.task a.subject) "wm_mean_signal")) ∧
    (matlabInput a env trVal (effectiveMovReg a)).lookup "file_vent" =
      some (PyVal.vStr (specGet (outputSpec a.output_folder a.task a.subject) "vent_mean_signal")) ∧
    (matlabInput a env trVal (effectiveMovReg a)).lookup "file_mov_reg" =
      some (PyVal.vStr (effectiveMovReg a)) ∧
    (matlabInput a env trVal (effectiveMovReg a)).lookup "motion_filename" =
      some (PyVal.vStr (basename
        (specGet (outputSpec a.output_folder a.task a.subject) "output_motion_numbers"))) ∧
    (matlabInput a env trVal (effectiveMovReg a)).lookup "skip_seconds" =
      some (PyVal.vNum a.skip_seconds) ∧
    (matlabInput a env trVal (effectiveMovReg a)).lookup "result_dir" =
      some (PyVal.vStr (specGet (outputSpec a.output_folder a.task a.subject) "result_dir")) :=
  ⟨runInterface_task_writes_config here a env trVal fs tr1 fs1 mcr hs ht hv hc hm hf,
   rfl, by decide, rfl, rfl, rfl, rfl, rfl, rfl, rfl, rfl, rfl, rfl, rfl, rfl,
   rfl, rfl, rfl, rfl⟩

/-- Witness for C3: concrete task-mode run whose config write appears in the
trace. -/
theorem c3_witness :
    fsExists fs3
      (specGet (outputSpec args3.output_folder args3.task args3.subject) "vent_mask") = true ∧
    Effect.writeJson (specGet (outputSpec args3.output_folder args3.task args3.subject) "config")
        (matlabInput args3 env3 (1/2) (effectiveMovReg args3))
      ∈ (runInterface "/opt/dcan" args3 env3 (1/2) fs3).1 :=
  ⟨by decide,
   (c3_engine_config_exact "/opt/dcan" args3 env3 (1/2) fs3 [] fs3 "/opt/mcr/v91"
     rfl rfl (by decide) rfl rfl (Or.inl rfl)).1⟩

/-- C4: in a run that reaches the engine, the movement-regressor entry every
subsequent step consumes (the engine config's `file_mov_reg`) equals the
computed filtered-output path when a motion filter type is supplied — a
filename under the result directory encoding the version name, the band-stop
min and max bounds, and the original regressor basename — and equals the raw
regressor path when no filter type is supplied. -/
theorem c4_motion_filter_substitution (here : String) (a : Args) (env : Env)
    (trVal : ℚ) (fs : FS) (tr1 : List Effect) (fs1 : FS) (mcr : String)
    (hs : a.setup = false) (ht : a.teardown = false)
    (hv : fsExists fs
      (specGet (outputSpec a.output_folder a.task a.subject) "vent_mask") = true)
    (hc : taskCleanup a.task fs
      ((outputSpec a.output_folder a.task a.subject).map Prod.snd)
      = (tr1, Except.ok fs1))
    (hm : envGet env "MCRROOT" = some mcr)
    (hf : a.motion_filter_type = none ∨ ∃ mc, envGet env "MCROOT" = some mc) :
    ((∃ ftype, a.motion_filter_type = some ftype) →
      effectiveMovReg a =
        osPathJoin
          [specGet (outputSpec a.output_folder a.task a.subject) "result_dir",
           versionName ++ "_bs" ++ optStr a.band_stop_min ++ "_" ++
             optStr a.band_stop_max ++ "_filtered_" ++
             basename (specGet (inputSpec a.output_folder a.task) "movement_regressors")]) ∧
    (a.motion_filter_type = none →
      effectiveMovReg a = specGet (inputSpec a.output_folder a.task) "movement_regressors") ∧
    (matlabInput a env trVal (effectiveMovReg a)).lookup "file_mov_reg" =
      some (PyVal.vStr (effectiveMovReg a)) ∧
    Effect.writeJson (specGet (outputSpec a.output_folder a.task a.subject) "config")
        (matlabInput a env trVal (effectiveMovReg a))
      ∈ (runInterface here a env trVal fs).1 := by
  refine ⟨?_, ?_, rfl,
    runInterface_task_writes_config here a env trVal fs tr1 fs1 mcr hs ht hv hc hm hf⟩
  · rintro ⟨ftype, hft⟩
    simp [effectiveMovReg, hft, filteredMovRegPath]
  · intro hft
    simp [effectiveMovReg, hft]

/-- Witness for C4: concrete run with a notch filter; the effective regressor
path is the encoded filtered filename. -/
theorem c4_witness :
    (∃ ftype, args4.motion_filter_type = some ftype) ∧
    effectiveMovReg args4 =
      osPathJoin
        [specGet (outputSpec args4.output_folder args4.task args4.subject) "result_dir",
         versionName ++ "_bs" ++ optStr args4.band_stop_min ++ "_" ++
           optStr args4.band_stop_max ++ "_filtered_" ++
           basename (specGet (inputSpec args4.output_folder args4.task) "movement_regressors")] :=
  ⟨⟨"notch", rfl⟩,
   (c4_motion_filter_substitution "/opt/dcan" args4 env4 (4/5) fs4 [] fs4
     "/opt/mcr/v91" rfl rfl (by decide) rfl rfl
     (Or.inr ⟨"/opt/mcr", rfl⟩)).1 ⟨"notch", rfl⟩⟩

/-- C5 evidence (code bug): the value serialized under `path_wb_c` is the
CARET7DIR template string itself — the percent-format against `os.environ`
performs no substitution because the template carries no percent conversion
specifier — so it never equals the environment variable's value joined with
the tool name, even when CARET7DIR is set. -/
theorem c5_wb_command_unsubstituted :
    (∀ env : Env, resolveWbPath env = "\x7bCARET7DIR\x7d/wb_command") ∧
    envGet env5 "CARET7DIR" = some "/opt/workbench/bin" ∧
    (matlabInput args5 env5 (4/5) "mov").lookup "path_wb_c" =
      some (PyVal.vStr "\x7bCARET7DIR\x7d/wb_command") ∧
    resolveWbPath env5 ≠ "/opt/workbench/bin" ++ "/wb_command" :=
  ⟨fun _ => rfl, rfl, rfl, by decide⟩

/-- C6 evidence (code bug): every teardown invocation reads the repetition
time and then, while assembling the analyses config dict, evaluates the
undefined name `repitition_time` (a misspelling of the variable assigned one
line earlier): teardown raises `NameError` instead of completing. -/
theorem c6_teardown_raises_name_error :
    ∀ (here : String) (a : Args) (env : Env) (trVal : ℚ) (fs : FS),
      runInterface here { a with setup := false, teardown := true } env trVal fs =
        ([Effect.call ["fslval",
            specGet (inputSpec a.output_folder a.task) "fmri_volume", "pixdim4"]],
         Except.error (PyErr.nameError "repitition_time")) := by
  intro here a env trVal fs
  rfl

/-- C7 counterexample: in the concrete scenario (subject `sub01`, task
`task-rest`, output folder `/data/out`, all defaults, no motion filter) the
task-mode run never writes a config at the claimed path
`.../task-rest_mat_config.json`; the single config write occurs at the
version-named path `.../DCANBOLDProc_v4.0.0_mat_config.json`. -/
theorem c7_config_path_counterexample :
    ((runInterface "/opt/dcan" args7 env7 (4/5) fs7).1.any
      (writesAt c7ClaimedConfigPath)) = false ∧
    ((runInterface "/opt/dcan" args7 env7 (4/5) fs7).1.any
      (writesAt c7ActualConfigPath)) = true := by
  constructor
  · decide
  · decide

/-- C7 amended: in the same concrete scenario, the config is written at the
version-named path `/data/out/MNINonLinear/Results/task-rest/
DCANBOLDProc_v4.0.0/DCANBOLDProc_v4.0.0_mat_config.json`, its `fd_th` field
equals 0.3, its `bp_order` field equals 2, and its `file_mov_reg` field is
the original `Movement_Regressors.txt` path. -/
theorem c7_config_amended :
    Effect.writeJson c7ActualConfigPath (matlabInput args7 env7 (4/5) c7MovReg)
      ∈ (runInterface "/opt/dcan" args7 env7 (4/5) fs7).1 ∧
    (matlabInput args7 env7 (4/5) c7MovReg).lookup "fd_th" =
      some (PyVal.vNum (3/10)) ∧
    (matlabInput args7 env7 (4/5) c7MovReg).lookup "bp_order" =
      some (PyVal.vNum 2) ∧
    (matlabInput args7 env7 (4/5) c7MovReg).lookup "file_mov_reg" =
      some (PyVal.vStr c7MovReg) :=
  ⟨runInterface_task_writes_config "/opt/dcan" args7 env7 (4/5) fs7 [] fs7
     "/opt/mcr/v91" rfl rfl (by decide) rfl rfl (Or.inl rfl),
   rfl, rfl, rfl⟩

/-- C8: a successful mask-builder run issues its eight external commands
first and only then the six temporary-file removals; afterwards none of the
six temporary filenames exists while both final mask outputs do. -/
theorem c8_make_masks_cleanup (seg wm vent : String) (fs : FS)
    (hnd : (makeMasksTempfiles wm).Nodup)
    (hw : wm ∉ makeMasksTempfiles wm) (hv : vent ∉ makeMasksTempfiles wm) :
    makeMasksRun seg wm vent fs =
      ((makeMasksCmds seg wm vent).map Effect.call ++
         (makeMasksTempfiles wm).map Effect.remove,
       Except.ok (fsRemoveAll (fsAfterCmds fs (makeMasksCmds seg wm vent))
         (makeMasksTempfiles wm))) ∧
    (∀ t ∈ makeMasksTempfiles wm,
      fsExists (fsRemoveAll (fsAfterCmds fs (makeMasksCmds seg wm vent))
        (makeMasksTempfiles wm)) t = false) ∧
    fsExists (fsRemoveAll (fsAfterCmds fs (makeMasksCmds seg wm vent))
      (makeMasksTempfiles wm)) wm = true ∧
    fsExists (fsRemoveAll (fsAfterCmds fs (makeMasksCmds seg wm vent))
      (makeMasksTempfiles wm)) vent = true := by
  have houts : cmdOutputs (makeMasksCmds seg wm vent) =
      [osPathJoin [dirname wm, "tmp_right_wm.nii.gz"],
       osPathJoin [dirname wm, "tmp_left_wm.nii.gz"],
       osPathJoin [dirname wm, "tmp_wm.nii.gz"], wm,
       osPathJoin [dirname wm, "tmp_right_vent.nii.gz"],
       osPathJoin [dirname wm, "tmp_left_vent.nii.gz"],
       osPathJoin [dirname wm, "tmp_vent.nii.gz"], vent] := rfl
  have hsub : ∀ t ∈ makeMasksTempfiles wm,
      t ∈ cmdOutputs (makeMasksCmds seg wm vent) := by
    intro t ht
    rw [houts]
    simp only [makeMasksTempfiles, List.mem_cons, List.not_mem_nil, or_false] at ht
    rcases ht with rfl | rfl | rfl | rfl | rfl | rfl <;> simp
  have hall : ∀ t ∈ makeMasksTempfiles wm,
      fsLookup (fsAfterCmds fs (makeMasksCmds seg wm vent)) t = some false :=
    fun t ht => fsLookup_afterCmds_mem _ _ _ (hsub t ht)
  have hrm := removePass_eq (makeMasksTempfiles wm)
    (fsAfterCmds fs (makeMasksCmds seg wm vent)) hnd hall
  have hwm_out : wm ∈ cmdOutputs (makeMasksCmds seg wm vent) := by
    rw [houts]; simp
  have hvent_out : vent ∈ cmdOutputs (makeMasksCmds seg wm vent) := by
    rw [houts]; simp
  refine ⟨?_, ?_, ?_, ?_⟩
  · simp only [makeMasksRun, runExternalCmds_eq, hrm]
  · intro t ht
    have h1 := fsLookup_removeAll_mem (makeMasksTempfiles wm)
      (fsAfterCmds fs (makeMasksCmds seg wm vent)) t ht
    simp [fsExists, h1]
  · have h1 := fsLookup_removeAll_not_mem (makeMasksTempfiles wm)
      (fsAfterCmds fs (makeMasksCmds seg wm vent)) wm hw
    have h2 := fsLookup_afterCmds_mem (makeMasksCmds seg wm vent) fs wm hwm_out
    simp [fsExists, h1, h2]
  · have h1 := fsLookup_removeAll_not_mem (makeMasksTempfiles wm)
      (fsAfterCmds fs (makeMasksCmds seg wm vent)) vent hv
    have h2 := fsLookup_afterCmds_mem (makeMasksCmds seg wm vent) fs vent hvent_out
    simp [fsExists, h1, h2]

/-- Witness for C8: concrete mask-builder run; the white-matter mask output
exists afterwards (and the output names avoid the temporary names). -/
theorem c8_witness :
    wmW ∉ makeMasksTempfiles wmW ∧
    fsExists (fsRemoveAll (fsAfterCmds ([] : FS) (makeMasksCmds segW wmW ventW))
      (makeMasksTempfiles wmW)) wmW = true :=
  ⟨by decide,
   (c8_make_masks_cleanup segW wmW ventW ([] : FS) (by decide) (by decide)
     (by decide)).2.2.1⟩

/-- C9 evidence (code bug): `_cli` forwards every parsed flag value to the
matching `interface` parameter except `--contiguous_frames`, which is absent
from the kwargs dict it builds, so `interface` always receives `None` for it
— even at the parser default of 9. -/
theorem c9_contiguous_frames_dropped :
    (∀ p : ParsedArgs,
      (cliToInterfaceArgs p).contiguous_frames = none ∧
      (cliToInterfaceArgs p).subject = p.subject ∧
      (cliToInterfaceArgs p).task = p.task ∧
      (cliToInterfaceArgs p).output_folder = p.output_folder ∧
      (cliToInterfaceArgs p).fd_threshold = p.fd_threshold ∧
      (cliToInterfaceArgs p).filter_order = p.filter_order ∧
      (cliToInterfaceArgs p).lower_bpf = p.lower_bpf ∧
      (cliToInterfaceArgs p).upper_bpf = p.upper_bpf ∧
      (cliToInterfaceArgs p).motion_filter_type = p.motion_filter_type ∧
      (cliToInterfaceArgs p).motion_filter_option = p.motion_filter_option ∧
      (cliToInterfaceArgs p).motion_filter_order = p.motion_filter_order ∧
      (cliToInterfaceArgs p).band_stop_min = p.band_stop_min ∧
      (cliToInterfaceArgs p).band_stop_max = p.band_stop_max ∧
      (cliToInterfaceArgs p).skip_seconds = p.skip_seconds ∧
      (cliToInterfaceArgs p).brain_radius = p.brain_radius ∧
      (cliToInterfaceArgs p).setup = p.setup ∧
      (cliToInterfaceArgs p).teardown = p.teardown) ∧
    parsed9.contiguous_frames = 9 ∧
    (cliToInterfaceArgs parsed9).contiguous_frames ≠ some (9 : ℚ) :=
  ⟨fun _ => ⟨rfl, rfl, rfl, rfl, rfl, rfl, rfl, rfl, rfl, rfl, rfl, rfl, rfl,
     rfl, rfl, rfl, rfl⟩,
   rfl, by decide⟩

/-- C10: if any of the directory-valued output-spec entries (`output_ciftis`,
`output_timecourses`, `summary_folder`) survives from a prior run as a
directory and its path does not contain the task name, the setup-mode
cleanup's plain `os.remove` raises `IsADirectoryError` and setup halts
before mask creation: the run fails and its trace holds only the progress
print and file removals (no external call, no mkdir, no write). -/
theorem c10_setup_dir_cleanup_error (here : String) (a : Args) (env : Env)
    (trVal : ℚ) (fs : FS) (d : String) (hs : a.setup = true)
    (hd : d ∈ [specGet (outputSpec a.output_folder a.task a.subject) "output_ciftis",
               specGet (outputSpec a.output_folder a.task a.subject) "output_timecourses",
               specGet (outputSpec a.output_folder a.task a.subject) "summary_folder"])
    (hdir : fsIsDir fs d = true) (htask : pyIn a.task d = false) :
    (∃ q, (runInterface here a env trVal fs).2 =
      Except.error (PyErr.isADirectoryError q)) ∧
    (∀ e ∈ (runInterface here a env trVal fs).1,
      (∃ s, e = Effect.msg s) ∨ (∃ w, e = Effect.remove w)) := by
  have hdv : d ∈ (outputSpec a.output_folder a.task a.subject).map Prod.snd := by
    simp only [List.mem_cons, List.not_mem_nil, or_false] at hd
    rcases hd with rfl | rfl | rfl <;> simp [outputSpec, specGet, List.lookup]
  have hpd : (fun w => !pyIn a.task w) d = true := by simp [htask]
  obtain ⟨q, hq⟩ := cleanupWhere_dir_error (fun w => !pyIn a.task w)
    ((outputSpec a.output_folder a.task a.subject).map Prod.snd) fs d hdv hpd hdir
  rcases hsc : setupCleanup a.task fs
      ((outputSpec a.output_folder a.task a.subject).map Prod.snd) with ⟨tr1, r⟩
  have hr : r = Except.error (PyErr.isADirectoryError q) := by
    have h2 : (setupCleanup a.task fs
        ((outputSpec a.output_folder a.task a.subject).map Prod.snd)).2 =
        Except.error (PyErr.isADirectoryError q) := hq
    rw [hsc] at h2
    exact h2
  subst hr
  constructor
  · exact ⟨q, by simp [runInterface, hs, hsc]⟩
  · intro e he
    simp only [runInterface, hs, if_true, hsc] at he
    rcases List.mem_cons.mp (by simpa using he) with rfl | he1
    · exact Or.inl ⟨_, rfl⟩
    · have h2 : e ∈ (setupCleanup a.task fs
          ((outputSpec a.output_folder a.task a.subject).map Prod.snd)).1 := by
        rw [hsc]; exact he1
      obtain ⟨w, hw⟩ := cleanupWhere_trace_removes (fun w => !pyIn a.task w)
        ((outputSpec a.output_folder a.task a.subject).map Prod.snd) fs e h2
      exact Or.inr ⟨w, hw⟩

/-- Witness for C10: setup against a filesystem where the summary folder is a
directory halts with `IsADirectoryError`. -/
theorem c10_witness :
    fsIsDir fs10 "/data/out/MNINonLinear/summary_DCANBOLDProc_v4.0.0" = true ∧
    (∃ q, (runInterface "/opt/dcan" args10 ([] : Env) (4/5) fs10).2 =
      Except.error (PyErr.isADirectoryError q)) :=
  ⟨by decide,
   (c10_setup_dir_cleanup_error "/opt/dcan" args10 ([] : Env) (4/5) fs10
     "/data/out/MNINonLinear/summary_DCANBOLDProc_v4.0.0" rfl (by decide)
     (by decide) (by decide)).1⟩

end DcanBoldProc
